import Mathlib

/-!
Verification development for the GovMate results-aggregation frontend.

The embedding models the two in-scope components of the repository:

* `fetchAll` — the five-way fetch-and-merge in
  `apps/web/app/results/page.tsx` (lines 100-150).  The five HTTP
  requests are issued with `Promise.allSettled`, so the array of
  settlement outcomes is modelled as five explicit `FetchOutcome`
  arguments.  Each outcome is either `rejected` (network error) or
  `fulfilled ok body?` where `ok` is `Response.ok` and `body?` is the
  result of `await res.json()`: `some v` when the body parses, `none`
  when `.json()` would throw.  Crucially, in the source the `await
  res.value.json()` calls happen inside the top-level `try`, so a parse
  failure of an `ok` response aborts the whole merge and lands in the
  `catch` block; this is modelled with an `Except` whose error value
  carries the component state accumulated so far (the earlier `setX`
  calls have already happened).

* `fetchSuburbs` — the suburb-list lookup with static fallback in the
  home page (`fetchSuburbs`, `SUBURBS_BY_STATE`).

React `useState` cells of the results page are collected into
`ResultState`; a `setX` call is a functional record update.  JSON
numbers typed `number` in TypeScript are modelled as `Rat` (they are
inert payload: no claim computes with them), `int`-like fields as `Int`,
and the opaque `context?: any` as an abstract `Option String` payload.
-/

namespace GovMate

/-- `Service` record from `page.tsx` (interface `Service`). -/
structure Service where
  id : Option Int := none
  name : String
  description : String
  agency : Option String := none
  address_norm : Option String := none
  suburb : Option String := none
  state : Option String := none
  lat : Option Rat := none
  lon : Option Rat := none
  distance_km : Option Rat := none
  phone : Option String := none
  website : Option String := none
  seifa_decile : Option Int := none
  contact : Option String := none
  deriving Repr, DecidableEq

/-- `RuleCard` record from `page.tsx` (interface `RuleCard`). -/
structure RuleCard where
  category : String
  suburb : String
  rulecard : String
  data_sources : List String
  deriving Repr, DecidableEq

/-- `SeifaData` record from `page.tsx` (interface `SeifaData`). -/
structure SeifaData where
  location : String
  seifa_decile : Int
  seifa_score : Rat
  population : Int
  data_sources : List String
  deriving Repr, DecidableEq

/-- `LabourData` record from `page.tsx` (interface `LabourData`). -/
structure LabourData where
  state : String
  national_unemployment : Rat
  national_employment_rate : Rat
  youth_unemployment : Rat
  data_sources : List String
  deriving Repr, DecidableEq

/-- `AIInsight` record from `page.tsx` (interface `AIInsight`);
`context?: any` is abstracted as an optional opaque string. -/
structure AIInsight where
  intent : String
  confidence : Rat
  ai_insight : String
  detected_location : String
  context : Option String := none
  deriving Repr, DecidableEq

/-- Parsed body of the `/services` response: the code reads
`servData.services || []`, so the `services` key may be missing or
null, modelled by `Option`. -/
structure ServicesBody where
  services : Option (List Service)
  deriving Repr, DecidableEq

/-- Settlement outcome of one `fetch`, as observed through
`Promise.allSettled` plus the later `res.json()` call: `rejected` is a
network error; `fulfilled ok body?` is an HTTP response where `ok` is
`Response.ok` and `body? = none` means the body is not valid JSON
(`res.json()` throws). -/
inductive FetchOutcome (β : Type) where
  | rejected : FetchOutcome β
  | fulfilled : Bool → Option β → FetchOutcome β
  deriving Repr, DecidableEq

/-- The `useState` cells of `ResultsPageContent` (page.tsx lines
86-92). -/
structure ResultState where
  services : List Service
  seifa : Option SeifaData
  labour : Option LabourData
  rulecard : Option RuleCard
  aiInsight : Option AIInsight
  loading : Bool
  error : Option String
  deriving Repr, DecidableEq

/-- Initial state on component mount (page.tsx lines 86-92). -/
def initialResultState : ResultState :=
  { services := []
    seifa := none
    labour := none
    rulecard := none
    aiInsight := none
    loading := false
    error := none }

/-- The overall status of the aggregation as the spec names it.  The
render code distinguishes exactly: spinner while `loading`, error
screen when `error` is set, results screen otherwise; `idle` (before
the first query) renders like `ready` with all fields absent. -/
inductive Status where
  | idle : Status
  | loading : Status
  | ready : Status
  | failed : Status
  deriving Repr, DecidableEq

/-- Status derived from the state, mirroring the render branches of
`ResultsPageContent` (page.tsx lines 152-177). -/
def ResultState.status (s : ResultState) : Status :=
  if s.loading then Status.loading
  else match s.error with
    | some _ => Status.failed
    | none => Status.ready

/-- One `if (res.status === 'fulfilled' && res.value.ok) { const d =
await res.value.json(); setX(d) }` block of `fetchAll` (page.tsx lines
119-142).  A rejected promise or a non-ok response is skipped (the
field keeps its value); on an ok response the body is parsed: a parse
failure throws out of the whole `try`, carrying the state mutated so
far. -/
def handleRes {β : Type} (res : FetchOutcome β)
    (app : β → ResultState → ResultState) (s : ResultState) :
    Except ResultState ResultState :=
  match res with
  | FetchOutcome.rejected => Except.ok s
  | FetchOutcome.fulfilled ok body =>
    if ok then
      match body with
      | some v => Except.ok (app v s)
      | none => Except.error s
    else Except.ok s

/-- The sequential body of the `try` block after `Promise.allSettled`
resolves: the five responses are examined in source order (intent,
services, seifa, labour, rulecard); an exception from any `json()`
call aborts the rest. -/
def runAll (s : ResultState)
    (intentRes : FetchOutcome AIInsight)
    (servicesRes : FetchOutcome ServicesBody)
    (seifaRes : FetchOutcome SeifaData)
    (labourRes : FetchOutcome LabourData)
    (rulecardRes : FetchOutcome RuleCard) :
    Except ResultState ResultState :=
  match handleRes intentRes (fun v t => { t with aiInsight := some v }) s with
  | Except.error t => Except.error t
  | Except.ok s1 =>
    match handleRes servicesRes
        (fun v t => { t with services := v.services.getD [] }) s1 with
    | Except.error t => Except.error t
    | Except.ok s2 =>
      match handleRes seifaRes (fun v t => { t with seifa := some v }) s2 with
      | Except.error t => Except.error t
      | Except.ok s3 =>
        match handleRes labourRes (fun v t => { t with labour := some v }) s3 with
        | Except.error t => Except.error t
        | Except.ok s4 =>
          match handleRes rulecardRes
              (fun v t => { t with rulecard := some v }) s4 with
          | Except.error t => Except.error t
          | Except.ok s5 => Except.ok s5

/-- `fetchAll` (page.tsx lines 100-150): set `loading`, clear `error`,
settle all five requests, merge whatever succeeded; the `catch` block
sets the generic error message, and the `finally` block clears
`loading` on every path. -/
def fetchAll (s : ResultState)
    (intentRes : FetchOutcome AIInsight)
    (servicesRes : FetchOutcome ServicesBody)
    (seifaRes : FetchOutcome SeifaData)
    (labourRes : FetchOutcome LabourData)
    (rulecardRes : FetchOutcome RuleCard) : ResultState :=
  let started := { s with loading := true, error := none }
  match runAll started intentRes servicesRes seifaRes labourRes rulecardRes with
  | Except.ok t => { t with loading := false }
  | Except.error t =>
    { t with error := some "Error fetching data", loading := false }

/-- The query parameters read by the results page. -/
structure Query where
  category : String
  state : String
  suburb : String
  user_query : String
  deriving Repr, DecidableEq

/-- The `useEffect` guard (page.tsx lines 94-98): `fetchAll` runs only
when all four query fields are truthy (non-empty strings). -/
def effectRun (q : Query) (s : ResultState)
    (intentRes : FetchOutcome AIInsight)
    (servicesRes : FetchOutcome ServicesBody)
    (seifaRes : FetchOutcome SeifaData)
    (labourRes : FetchOutcome LabourData)
    (rulecardRes : FetchOutcome RuleCard) : ResultState :=
  if q.category ≠ "" ∧ q.state ≠ "" ∧ q.suburb ≠ "" ∧ q.user_query ≠ "" then
    fetchAll s intentRes servicesRes seifaRes labourRes rulecardRes
  else s

/-! ## Suburb resolver (home page, `fetchSuburbs` / `SUBURBS_BY_STATE`) -/

/-- Parsed body of the `/suburbs-list/{state}` response: the code reads
`data.suburbs || []`. -/
structure SuburbsBody where
  suburbs : Option (List String)
  deriving Repr, DecidableEq

/-- The static client-side fallback table `SUBURBS_BY_STATE` from the
home page, transcribed verbatim (duplicate entries included). -/
def SUBURBS_BY_STATE : List (String × List String) :=
  [("NSW", ["Sydney CBD", "Parramatta", "Newcastle", "Wollongong",
            "Central Coast", "Blue Mountains", "Hunter Valley", "Illawarra",
            "North Shore", "Western Sydney"]),
   ("VIC", ["Melbourne CBD", "Geelong", "Ballarat", "Bendigo", "Shepparton",
            "Mildura", "Warrnambool", "Albury-Wodonga", "Latrobe Valley",
            "Mornington Peninsula"]),
   ("QLD", ["Brisbane City", "Gold Coast", "Sunshine Coast", "Townsville",
            "Cairns", "Toowoomba", "Mackay", "Rockhampton", "Bundaberg",
            "Hervey Bay"]),
   ("WA", ["Perth CBD", "Fremantle", "Joondalup", "Rockingham", "Mandurah",
           "Albany", "Bunbury", "Geraldton", "Kalgoorlie", "Broome"]),
   ("SA", ["Adelaide CBD", "Mount Gambier", "Whyalla", "Murray Bridge",
           "Port Augusta", "Port Pirie", "Port Lincoln", "Renmark", "Berri",
           "Mount Barker"]),
   ("TAS", ["Hobart", "Launceston", "Devonport", "Burnie", "Ulverstone",
            "Kingston", "Clarence", "Glenorchy", "New Norfolk",
            "Bridgewater"]),
   ("ACT", ["Canberra City", "Belconnen", "Woden", "Tuggeranong",
            "Gungahlin", "Fyshwick", "Mitchell", "Fyshwick", "Dickson",
            "Braddon"]),
   ("NT", ["Darwin", "Alice Springs", "Palmerston", "Katherine",
           "Tennant Creek", "Jabiru", "Nhulunbuy", "Alyangula", "Jabiru",
           "Tennant Creek"])]

/-- `SUBURBS_BY_STATE[state] || []` — indexing the fallback table by a
state code, empty when the key is absent. -/
def suburbsFallback (state : String) : List String :=
  match SUBURBS_BY_STATE.lookup state with
  | some l => l
  | none => []

/-- `fetchSuburbs` from the home page (part_001 lines 113-135).  The
return value pairs the list passed to `setAvailableSuburbs` with a flag
recording whether a network request was issued.  An empty state short-
circuits before the fetch; an ok response parses the body (a parse
failure is caught by the surrounding `catch` and falls back); a non-ok
response or a rejection falls back to the static table. -/
def fetchSuburbs (state : String) (res : FetchOutcome SuburbsBody) :
    List String × Bool :=
  if state = "" then ([], false)
  else
    match res with
    | FetchOutcome.rejected => (suburbsFallback state, true)
    | FetchOutcome.fulfilled ok body =>
      if ok then
        match body with
        | some data => (data.suburbs.getD [], true)
        | none => (suburbsFallback state, true)
      else (suburbsFallback state, true)

/-! ## Guide rendering (page.tsx lines 305-312) -/

/-- The step list rendered for a populated rulecard:
`rulecard.rulecard.split('\n').map((step, index) => ...)`, each entry
shown with badge number `index + 1` and text `step`. -/
def guideStepsRendered (rc : RuleCard) : List (Nat × String) :=
  ((rc.rulecard.splitOn "\n").enum).map (fun p => (p.1 + 1, p.2))

/-! ## Outcome classification (spec vocabulary)

These definitions are not code of the repository; they name, for use in
the theorem statements, the three ways a settled request can behave in
`fetchAll`: succeed with a parsed body, fail softly (rejection or
non-ok status — the field is skipped), or throw while parsing the body
of an ok response. -/

/-- The parsed value a sub-request contributes, when it succeeds. -/
def FetchOutcome.value? {β : Type} : FetchOutcome β → Option β
  | FetchOutcome.fulfilled true (some v) => some v
  | _ => none

/-- Whether the sub-request succeeds (fulfilled, ok, body parses). -/
def FetchOutcome.isSuccess {β : Type} (res : FetchOutcome β) : Bool :=
  res.value?.isSome

/-- Whether reading the body of this outcome throws inside the `try`
block: fulfilled, ok, but the body is not valid JSON. -/
def FetchOutcome.isThrow {β : Type} : FetchOutcome β → Bool
  | FetchOutcome.fulfilled true none => true
  | _ => false

/-- Whether any of the five settled responses would throw while its
body is parsed. -/
def anyThrows (intentRes : FetchOutcome AIInsight)
    (servicesRes : FetchOutcome ServicesBody)
    (seifaRes : FetchOutcome SeifaData)
    (labourRes : FetchOutcome LabourData)
    (rulecardRes : FetchOutcome RuleCard) : Bool :=
  intentRes.isThrow || servicesRes.isThrow || seifaRes.isThrow ||
    labourRes.isThrow || rulecardRes.isThrow

/-! ## Normal form of one settled response

Inside the `try` block a settled response produces one of exactly three
effects: it throws while parsing (`thrown`), it is skipped (`skip`:
rejection or non-ok status), or it contributes a parsed value (`got`).
Factoring `fetchAll` through this classification lets every property be
settled by finite case analysis on the five effects. -/

/-- The three behaviours of one `if fulfilled && ok { json(); set }`
block. -/
inductive Eff (β : Type) where
  | thrown : Eff β
  | skip : Eff β
  | got : β → Eff β
  deriving Repr, DecidableEq

/-- Classify a settlement outcome into its effect. -/
def FetchOutcome.eff {β : Type} : FetchOutcome β → Eff β
  | FetchOutcome.rejected => Eff.skip
  | FetchOutcome.fulfilled ok body =>
    if ok then
      match body with
      | some v => Eff.got v
      | none => Eff.thrown
    else Eff.skip

/-- Interpretation of one effect on the state. -/
def stepE {β : Type} (e : Eff β) (app : β → ResultState → ResultState)
    (s : ResultState) : Except ResultState ResultState :=
  match e with
  | Eff.thrown => Except.error s
  | Eff.skip => Except.ok s
  | Eff.got v => Except.ok (app v s)

theorem handleRes_eq_stepE {β : Type} (res : FetchOutcome β)
    (app : β → ResultState → ResultState) (s : ResultState) :
    handleRes res app s = stepE res.eff app s := by
  cases res with
  | rejected => rfl
  | fulfilled ok body => cases ok <;> cases body <;> rfl

/-- `runAll` with outcomes replaced by their effects. -/
def runAllE (s : ResultState) (e1 : Eff AIInsight) (e2 : Eff ServicesBody)
    (e3 : Eff SeifaData) (e4 : Eff LabourData) (e5 : Eff RuleCard) :
    Except ResultState ResultState :=
  match stepE e1 (fun v t => { t with aiInsight := some v }) s with
  | Except.error t => Except.error t
  | Except.ok s1 =>
    match stepE e2 (fun v t => { t with services := v.services.getD [] }) s1 with
    | Except.error t => Except.error t
    | Except.ok s2 =>
      match stepE e3 (fun v t => { t with seifa := some v }) s2 with
      | Except.error t => Except.error t
      | Except.ok s3 =>
        match stepE e4 (fun v t => { t with labour := some v }) s3 with
        | Except.error t => Except.error t
        | Except.ok s4 =>
          match stepE e5 (fun v t => { t with rulecard := some v }) s4 with
          | Except.error t => Except.error t
          | Except.ok s5 => Except.ok s5

/-- `fetchAll` with outcomes replaced by their effects. -/
def fetchAllE (s : ResultState) (e1 : Eff AIInsight) (e2 : Eff ServicesBody)
    (e3 : Eff SeifaData) (e4 : Eff LabourData) (e5 : Eff RuleCard) :
    ResultState :=
  let started := { s with loading := true, error := none }
  match runAllE started e1 e2 e3 e4 e5 with
  | Except.ok t => { t with loading := false }
  | Except.error t =>
    { t with error := some "Error fetching data", loading := false }

theorem fetchAll_eq_fetchAllE (s : ResultState)
    (i : FetchOutcome AIInsight) (sv : FetchOutcome ServicesBody)
    (se : FetchOutcome SeifaData) (l : FetchOutcome LabourData)
    (r : FetchOutcome RuleCard) :
    fetchAll s i sv se l r = fetchAllE s i.eff sv.eff se.eff l.eff r.eff := by
  simp only [fetchAll, fetchAllE, runAll, runAllE, handleRes_eq_stepE]

/-- Merge one effect into an optional field: a contributed value
overwrites, otherwise the old value is kept. -/
def Eff.updOpt {β : Type} (e : Eff β) (old : Option β) : Option β :=
  match e with
  | Eff.got v => some v
  | _ => old

/-- Merge one effect into the services list: a parsed body contributes
`body.services || []`, otherwise the old list is kept. -/
def Eff.updServices (e : Eff ServicesBody) (old : List Service) :
    List Service :=
  match e with
  | Eff.got b => b.services.getD []
  | _ => old

/-- Whether the effect contributes a value. -/
def Eff.isGot {β : Type} : Eff β → Bool
  | Eff.got _ => true
  | _ => false

/-- Characterization of the merge when no response body throws while
parsing: every request that succeeded overwrites its field, every other
field keeps its previous value, `loading` ends false and `error` ends
absent. -/
theorem fetchAllE_noThrow (s : ResultState) (e1 : Eff AIInsight)
    (e2 : Eff ServicesBody) (e3 : Eff SeifaData) (e4 : Eff LabourData)
    (e5 : Eff RuleCard) (h1 : e1 ≠ Eff.thrown) (h2 : e2 ≠ Eff.thrown)
    (h3 : e3 ≠ Eff.thrown) (h4 : e4 ≠ Eff.thrown) (h5 : e5 ≠ Eff.thrown) :
    fetchAllE s e1 e2 e3 e4 e5 =
      { s with
        loading := false
        error := none
        aiInsight := e1.updOpt s.aiInsight
        services := e2.updServices s.services
        seifa := e3.updOpt s.seifa
        labour := e4.updOpt s.labour
        rulecard := e5.updOpt s.rulecard } := by
  cases e1 <;> cases e2 <;> cases e3 <;> cases e4 <;> cases e5 <;>
    first
    | exact (h1 rfl).elim
    | exact (h2 rfl).elim
    | exact (h3 rfl).elim
    | exact (h4 rfl).elim
    | exact (h5 rfl).elim
    | rfl

/-- When some response body throws while parsing, the `catch` block
runs: the generic error message is set and `loading` is cleared. -/
theorem fetchAllE_throw (s : ResultState) (e1 : Eff AIInsight)
    (e2 : Eff ServicesBody) (e3 : Eff SeifaData) (e4 : Eff LabourData)
    (e5 : Eff RuleCard)
    (h : e1 = Eff.thrown ∨ e2 = Eff.thrown ∨ e3 = Eff.thrown ∨
      e4 = Eff.thrown ∨ e5 = Eff.thrown) :
    (fetchAllE s e1 e2 e3 e4 e5).error = some "Error fetching data" ∧
      (fetchAllE s e1 e2 e3 e4 e5).loading = false := by
  cases e1 <;> cases e2 <;> cases e3 <;> cases e4 <;> cases e5 <;>
    first
    | exact ⟨rfl, rfl⟩
    | (rcases h with h | h | h | h | h <;> exact Eff.noConfusion h)

/-- The `finally` block always clears `loading`. -/
theorem fetchAllE_loading (s : ResultState) (e1 : Eff AIInsight)
    (e2 : Eff ServicesBody) (e3 : Eff SeifaData) (e4 : Eff LabourData)
    (e5 : Eff RuleCard) : (fetchAllE s e1 e2 e3 e4 e5).loading = false := by
  cases e1 <;> cases e2 <;> cases e3 <;> cases e4 <;> cases e5 <;> rfl

/-- A field belonging to a request that contributed no value keeps its
previous content, whatever the other four effects are. -/
theorem fetchAllE_retain (s : ResultState) (e1 : Eff AIInsight)
    (e2 : Eff ServicesBody) (e3 : Eff SeifaData) (e4 : Eff LabourData)
    (e5 : Eff RuleCard) :
    (e1.isGot = false → (fetchAllE s e1 e2 e3 e4 e5).aiInsight = s.aiInsight) ∧
    (e2.isGot = false → (fetchAllE s e1 e2 e3 e4 e5).services = s.services) ∧
    (e3.isGot = false → (fetchAllE s e1 e2 e3 e4 e5).seifa = s.seifa) ∧
    (e4.isGot = false → (fetchAllE s e1 e2 e3 e4 e5).labour = s.labour) ∧
    (e5.isGot = false → (fetchAllE s e1 e2 e3 e4 e5).rulecard = s.rulecard) := by
  cases e1 <;> cases e2 <;> cases e3 <;> cases e4 <;> cases e5 <;>
    refine ⟨?_, ?_, ?_, ?_, ?_⟩ <;> intro hg <;> first
    | rfl
    | exact Bool.noConfusion hg

/-- When the intent request does not throw and the services response
parses, the services field is set from the body, whatever happens to
the later three requests. -/
theorem fetchAllE_services_got (s : ResultState) (e1 : Eff AIInsight)
    (b : ServicesBody) (e3 : Eff SeifaData) (e4 : Eff LabourData)
    (e5 : Eff RuleCard) (h1 : e1 ≠ Eff.thrown) :
    (fetchAllE s e1 (Eff.got b) e3 e4 e5).services = b.services.getD [] := by
  cases e1 <;> cases e3 <;> cases e4 <;> cases e5 <;> first
    | exact (h1 rfl).elim
    | rfl

/-! ## Bridging outcomes and effects -/

/-- Merge one settlement outcome into an optional field: a parsed value
from a successful request overwrites, any failure keeps the old
value. -/
def mergeOpt {β : Type} (res : FetchOutcome β) (old : Option β) :
    Option β :=
  match res.value? with
  | some v => some v
  | none => old

/-- Merge the services outcome into the services list: a success
contributes `body.services || []`, any failure keeps the old list. -/
def mergeServices (res : FetchOutcome ServicesBody) (old : List Service) :
    List Service :=
  match res.value? with
  | some b => b.services.getD []
  | none => old

theorem eff_ne_thrown_of_isThrow_false {β : Type} {res : FetchOutcome β}
    (h : res.isThrow = false) : res.eff ≠ Eff.thrown := by
  cases res with
  | rejected => exact fun hc => Eff.noConfusion hc
  | fulfilled ok body =>
    cases ok <;> cases body <;>
      first
      | exact fun hc => Eff.noConfusion hc
      | exact Bool.noConfusion h

theorem eff_thrown_of_isThrow {β : Type} {res : FetchOutcome β}
    (h : res.isThrow = true) : res.eff = Eff.thrown := by
  cases res with
  | rejected => exact Bool.noConfusion h
  | fulfilled ok body =>
    cases ok <;> cases body <;> first | rfl | exact Bool.noConfusion h

theorem isGot_eff_of_isSuccess_false {β : Type} {res : FetchOutcome β}
    (h : res.isSuccess = false) : res.eff.isGot = false := by
  cases res with
  | rejected => rfl
  | fulfilled ok body =>
    cases ok <;> cases body <;> first | rfl | exact Bool.noConfusion h

theorem updOpt_eff_eq_mergeOpt {β : Type} (res : FetchOutcome β)
    (old : Option β) : res.eff.updOpt old = mergeOpt res old := by
  cases res with
  | rejected => rfl
  | fulfilled ok body => cases ok <;> cases body <;> rfl

theorem updServices_eff_eq_mergeServices (res : FetchOutcome ServicesBody)
    (old : List Service) :
    res.eff.updServices old = mergeServices res old := by
  cases res with
  | rejected => rfl
  | fulfilled ok body => cases ok <;> cases body <;> rfl

theorem mergeOpt_none {β : Type} (res : FetchOutcome β) :
    mergeOpt res none = res.value? := by
  unfold mergeOpt
  cases res.value? <;> rfl

/-- `fetchAll`, characterized on the source-level outcomes, when no
response body throws while being parsed. -/
theorem fetchAll_noThrow_char (s : ResultState)
    (i : FetchOutcome AIInsight) (sv : FetchOutcome ServicesBody)
    (se : FetchOutcome SeifaData) (l : FetchOutcome LabourData)
    (r : FetchOutcome RuleCard) (h1 : i.isThrow = false)
    (h2 : sv.isThrow = false) (h3 : se.isThrow = false)
    (h4 : l.isThrow = false) (h5 : r.isThrow = false) :
    fetchAll s i sv se l r =
      { s with
        loading := false
        error := none
        aiInsight := mergeOpt i s.aiInsight
        services := mergeServices sv s.services
        seifa := mergeOpt se s.seifa
        labour := mergeOpt l s.labour
        rulecard := mergeOpt r s.rulecard } := by
  rw [fetchAll_eq_fetchAllE,
    fetchAllE_noThrow s i.eff sv.eff se.eff l.eff r.eff
      (eff_ne_thrown_of_isThrow_false h1)
      (eff_ne_thrown_of_isThrow_false h2)
      (eff_ne_thrown_of_isThrow_false h3)
      (eff_ne_thrown_of_isThrow_false h4)
      (eff_ne_thrown_of_isThrow_false h5),
    updOpt_eff_eq_mergeOpt, updOpt_eff_eq_mergeOpt, updOpt_eff_eq_mergeOpt,
    updOpt_eff_eq_mergeOpt, updServices_eff_eq_mergeServices]

/-- The `finally` block clears `loading` on every path. -/
theorem fetchAll_loading_cleared (s : ResultState)
    (i : FetchOutcome AIInsight) (sv : FetchOutcome ServicesBody)
    (se : FetchOutcome SeifaData) (l : FetchOutcome LabourData)
    (r : FetchOutcome RuleCard) : (fetchAll s i sv se l r).loading = false := by
  rw [fetchAll_eq_fetchAllE]
  exact fetchAllE_loading s i.eff sv.eff se.eff l.eff r.eff

/-- A state with `loading` cleared renders either the results screen or
the error screen. -/
theorem status_ready_or_failed {t : ResultState} (h : t.loading = false) :
    t.status = Status.ready ∨ t.status = Status.failed := by
  unfold ResultState.status
  rw [h]
  cases t.error <;> simp

/-- A state with `loading` cleared and an error message renders the
error screen. -/
theorem status_failed_of_error {t : ResultState} (h : t.loading = false)
    {m : String} (he : t.error = some m) : t.status = Status.failed := by
  unfold ResultState.status
  rw [h, he]
  rfl

/-- Replaying the same five effects over the state a first merge
produced changes nothing: every field is overwritten with the same
value or left alone, and the error/loading resets coincide. -/
theorem fetchAllE_idem (s : ResultState) (e1 : Eff AIInsight)
    (e2 : Eff ServicesBody) (e3 : Eff SeifaData) (e4 : Eff LabourData)
    (e5 : Eff RuleCard) :
    fetchAllE (fetchAllE s e1 e2 e3 e4 e5) e1 e2 e3 e4 e5 =
      fetchAllE s e1 e2 e3 e4 e5 := by
  cases e1 <;> cases e2 <;> cases e3 <;> cases e4 <;> cases e5 <;> rfl

/-! ## Guide-step rendering lemmas -/

theorem enumFrom_shift_map_snd {α : Type} (l : List α) (n : Nat) :
    ((List.enumFrom n l).map (fun p => (p.1 + 1, p.2))).map Prod.snd = l := by
  induction l generalizing n with
  | nil => rfl
  | cons a t ih => simp only [List.enumFrom, List.map_cons, List.cons.injEq]
                   exact ⟨trivial, ih (n + 1)⟩

theorem enumFrom_shift_map_fst {α : Type} (l : List α) (n : Nat) :
    ((List.enumFrom n l).map (fun p => (p.1 + 1, p.2))).map Prod.fst =
      List.range' (n + 1) l.length := by
  induction l generalizing n with
  | nil => rfl
  | cons a t ih => simp only [List.enumFrom, List.map_cons, List.length_cons,
                     List.range', List.cons.injEq]
                   exact ⟨trivial, ih (n + 1)⟩

/-! ## Sample data for concrete evaluations -/

def sampleService : Service :=
  { name := "Housing Service Centre"
    description := "Public housing applications and tenancy support" }

def sampleServicesBody : ServicesBody :=
  { services := some [sampleService] }

def sampleInsight : AIInsight :=
  { intent := "housing"
    confidence := 1
    ai_insight := "You can apply for public housing support."
    detected_location := "Brisbane City" }

def sampleSeifa : SeifaData :=
  { location := "Brisbane City"
    seifa_decile := 5
    seifa_score := 1000
    population := 12000
    data_sources := ["SEIFA 2021"] }

def sampleLabour : LabourData :=
  { state := "QLD"
    national_unemployment := 4
    national_employment_rate := 64
    youth_unemployment := 9
    data_sources := ["ABS Labour Force"] }

def sampleRuleCard : RuleCard :=
  { category := "housing"
    suburb := "Brisbane City"
    rulecard := "Register with Centrelink\nApply for public housing"
    data_sources := ["AGOR 2025"] }

def sampleQuery : Query :=
  { category := "housing"
    state := "QLD"
    suburb := "Brisbane City"
    user_query := "I need help finding student accommodation" }

/-- A results-page state as left by an earlier aggregation that had
populated the area and labour panels. -/
def previousResultState : ResultState :=
  { initialResultState with
    seifa := some sampleSeifa
    labour := some sampleLabour }

/-- A results-page state as left by an earlier aggregation that had
populated the services panel. -/
def staleServicesState : ResultState :=
  { initialResultState with services := [sampleService] }

/-! ## Claims -/

/-- Claim C1, counterexample.  Concrete input: the intent request is
fulfilled with an ok status but a body that is not valid JSON, while
the other four requests succeed with well-formed bodies.  The claim
predicts the insight field alone is absent, the other four fields are
populated and the final status is `ready`; the code instead throws out
of the `try` block at the first `json()` call, so the final status is
`failed` and the seifa field (whose own response succeeded) is not
populated. -/
theorem fetchAll_parse_failure_not_isolated :
    (fetchAll initialResultState (FetchOutcome.fulfilled true none)
      (FetchOutcome.fulfilled true (some sampleServicesBody))
      (FetchOutcome.fulfilled true (some sampleSeifa))
      (FetchOutcome.fulfilled true (some sampleLabour))
      (FetchOutcome.fulfilled true (some sampleRuleCard))).status =
        Status.failed ∧
    (fetchAll initialResultState (FetchOutcome.fulfilled true none)
      (FetchOutcome.fulfilled true (some sampleServicesBody))
      (FetchOutcome.fulfilled true (some sampleSeifa))
      (FetchOutcome.fulfilled true (some sampleLabour))
      (FetchOutcome.fulfilled true (some sampleRuleCard))).seifa = none :=
  ⟨rfl, rfl⟩

/-- Claim C1 (amended): for every sub-request that fails by network
error (rejection) or by a non-success HTTP status code — i.e. provided
no ok response carries an unparseable body — only the corresponding
field keeps its prior value (absent from a fresh state), each
succeeding sub-request populates its own field, no error is surfaced,
and the final status is `ready`.  A body that fails to parse is *not*
handled per-source: it aborts the whole merge (see the
counterexample). -/
theorem fetchAll_soft_failure_isolated (s : ResultState)
    (i : FetchOutcome AIInsight) (sv : FetchOutcome ServicesBody)
    (se : FetchOutcome SeifaData) (l : FetchOutcome LabourData)
    (r : FetchOutcome RuleCard) (h1 : i.isThrow = false)
    (h2 : sv.isThrow = false) (h3 : se.isThrow = false)
    (h4 : l.isThrow = false) (h5 : r.isThrow = false) :
    (fetchAll s i sv se l r).status = Status.ready ∧
    (fetchAll s i sv se l r).aiInsight = mergeOpt i s.aiInsight ∧
    (fetchAll s i sv se l r).services = mergeServices sv s.services ∧
    (fetchAll s i sv se l r).seifa = mergeOpt se s.seifa ∧
    (fetchAll s i sv se l r).labour = mergeOpt l s.labour ∧
    (fetchAll s i sv se l r).rulecard = mergeOpt r s.rulecard := by
  rw [fetchAll_noThrow_char s i sv se l r h1 h2 h3 h4 h5]
  exact ⟨rfl, rfl, rfl, rfl, rfl, rfl⟩

/-- Claim C1, witness: intent rejected, services non-ok, labour
rejected, guide non-ok, seifa succeeding — status is `ready` and the
seifa field is populated from its own response. -/
theorem fetchAll_soft_failure_isolated_witness :
    (fetchAll initialResultState FetchOutcome.rejected
      (FetchOutcome.fulfilled false none)
      (FetchOutcome.fulfilled true (some sampleSeifa))
      FetchOutcome.rejected
      (FetchOutcome.fulfilled false none)).status = Status.ready ∧
    (fetchAll initialResultState FetchOutcome.rejected
      (FetchOutcome.fulfilled false none)
      (FetchOutcome.fulfilled true (some sampleSeifa))
      FetchOutcome.rejected
      (FetchOutcome.fulfilled false none)).seifa = some sampleSeifa := by
  have h := fetchAll_soft_failure_isolated initialResultState
    FetchOutcome.rejected (FetchOutcome.fulfilled false none)
    (FetchOutcome.fulfilled true (some sampleSeifa)) FetchOutcome.rejected
    (FetchOutcome.fulfilled false none) rfl rfl rfl rfl rfl
  exact ⟨h.1, h.2.2.2.1⟩

/-- Claim C2, counterexample.  Concrete input: the intent request
succeeds (its field is set), then the services body fails to parse, so
the merge aborts and status is `failed` — yet the insight field is
populated, contradicting "all five data fields are absent on a failed
result". -/
theorem fetchAll_failed_keeps_partial_fields :
    (fetchAll initialResultState
      (FetchOutcome.fulfilled true (some sampleInsight))
      (FetchOutcome.fulfilled true none) FetchOutcome.rejected
      FetchOutcome.rejected FetchOutcome.rejected).status = Status.failed ∧
    (fetchAll initialResultState
      (FetchOutcome.fulfilled true (some sampleInsight))
      (FetchOutcome.fulfilled true none) FetchOutcome.rejected
      FetchOutcome.rejected FetchOutcome.rejected).aiInsight =
        some sampleInsight :=
  ⟨rfl, rfl⟩

/-- Claim C2 (amended): the final status is `failed` exactly when some
ok response has a body that fails to parse (the only way the `try`
block throws), and in that case `error` carries the generic message
"Error fetching data".  Fields are *not* all absent on a failed result:
sub-requests processed before the failing `json()` call keep their
freshly populated values (see the counterexample). -/
theorem fetchAll_failed_iff_parse_throw (s : ResultState)
    (i : FetchOutcome AIInsight) (sv : FetchOutcome ServicesBody)
    (se : FetchOutcome SeifaData) (l : FetchOutcome LabourData)
    (r : FetchOutcome RuleCard) :
    ((fetchAll s i sv se l r).status = Status.failed ↔
      anyThrows i sv se l r = true) ∧
    (anyThrows i sv se l r = true →
      (fetchAll s i sv se l r).error = some "Error fetching data") := by
  have herr : anyThrows i sv se l r = true →
      (fetchAll s i sv se l r).error = some "Error fetching data" := by
    intro ht
    have hd : i.eff = Eff.thrown ∨ sv.eff = Eff.thrown ∨
        se.eff = Eff.thrown ∨ l.eff = Eff.thrown ∨ r.eff = Eff.thrown := by
      have := ht
      unfold anyThrows at this
      rcases Bool.or_eq_true_iff.1 this with h | h5
      rcases Bool.or_eq_true_iff.1 h with h | h4
      rcases Bool.or_eq_true_iff.1 h with h | h3
      rcases Bool.or_eq_true_iff.1 h with h1 | h2
      · exact Or.inl (eff_thrown_of_isThrow h1)
      · exact Or.inr (Or.inl (eff_thrown_of_isThrow h2))
      · exact Or.inr (Or.inr (Or.inl (eff_thrown_of_isThrow h3)))
      · exact Or.inr (Or.inr (Or.inr (Or.inl (eff_thrown_of_isThrow h4))))
      · exact Or.inr (Or.inr (Or.inr (Or.inr (eff_thrown_of_isThrow h5))))
    rw [fetchAll_eq_fetchAllE]
    exact (fetchAllE_throw s i.eff sv.eff se.eff l.eff r.eff hd).1
  refine ⟨⟨?_, ?_⟩, herr⟩
  · intro hf
    by_contra hnt
    have hfalse : anyThrows i sv se l r = false :=
      Bool.not_eq_true _ ▸ Bool.of_not_eq_true hnt
    have h1 : i.isThrow = false := by
      unfold anyThrows at hfalse
      simp only [Bool.or_eq_false_iff] at hfalse
      exact hfalse.1.1.1.1
    have h2 : sv.isThrow = false := by
      unfold anyThrows at hfalse
      simp only [Bool.or_eq_false_iff] at hfalse
      exact hfalse.1.1.1.2
    have h3 : se.isThrow = false := by
      unfold anyThrows at hfalse
      simp only [Bool.or_eq_false_iff] at hfalse
      exact hfalse.1.1.2
    have h4 : l.isThrow = false := by
      unfold anyThrows at hfalse
      simp only [Bool.or_eq_false_iff] at hfalse
      exact hfalse.1.2
    have h5 : r.isThrow = false := by
      unfold anyThrows at hfalse
      simp only [Bool.or_eq_false_iff] at hfalse
      exact hfalse.2
    rw [fetchAll_noThrow_char s i sv se l r h1 h2 h3 h4 h5] at hf
    exact Status.noConfusion hf
  · intro ht
    exact status_failed_of_error
      (fetchAll_loading_cleared s i sv se l r) (herr ht)

/-- Claim C2, witness: an unparseable intent body makes the status
`failed` with the generic error message. -/
theorem fetchAll_failed_iff_parse_throw_witness :
    (fetchAll initialResultState (FetchOutcome.fulfilled true none)
      FetchOutcome.rejected FetchOutcome.rejected FetchOutcome.rejected
      FetchOutcome.rejected).error = some "Error fetching data" :=
  (fetchAll_failed_iff_parse_throw initialResultState
    (FetchOutcome.fulfilled true none) FetchOutcome.rejected
    FetchOutcome.rejected FetchOutcome.rejected FetchOutcome.rejected).2 rfl

/-- Claim C3, counterexample.  Concrete input where the succeeding
subset S is empty: four requests are rejected and the seifa response is
ok but its body fails to parse.  The claim predicts status `ready` with
all fields absent; the code ends in status `failed`. -/
theorem fetchAll_all_fail_not_ready :
    (fetchAll initialResultState FetchOutcome.rejected
      FetchOutcome.rejected (FetchOutcome.fulfilled true none)
      FetchOutcome.rejected FetchOutcome.rejected).status = Status.failed :=
  rfl

/-- Claim C3 (amended): for every subset S of the five sources that
succeed with well-formed bodies, provided every failing source fails by
rejection or non-ok status (no ok response with an unparseable body),
the result from a fresh state has exactly the fields of S populated —
each from its own response — and the rest absent, with status `ready`;
this holds independently of which subset S is, including S empty (all
five rejected or non-ok still reaches `ready`).  When a failure is an
unparseable body of an ok response, the aggregation instead ends
`failed` (see the counterexample). -/
theorem fetchAll_success_subset_characterization
    (i : FetchOutcome AIInsight) (sv : FetchOutcome ServicesBody)
    (se : FetchOutcome SeifaData) (l : FetchOutcome LabourData)
    (r : FetchOutcome RuleCard) (h1 : i.isThrow = false)
    (h2 : sv.isThrow = false) (h3 : se.isThrow = false)
    (h4 : l.isThrow = false) (h5 : r.isThrow = false) :
    (fetchAll initialResultState i sv se l r).status = Status.ready ∧
    (fetchAll initialResultState i sv se l r).aiInsight = i.value? ∧
    (fetchAll initialResultState i sv se l r).services =
      mergeServices sv [] ∧
    (fetchAll initialResultState i sv se l r).seifa = se.value? ∧
    (fetchAll initialResultState i sv se l r).labour = l.value? ∧
    (fetchAll initialResultState i sv se l r).rulecard = r.value? := by
  rw [fetchAll_noThrow_char initialResultState i sv se l r h1 h2 h3 h4 h5]
  exact ⟨rfl, mergeOpt_none i, rfl, mergeOpt_none se, mergeOpt_none l,
    mergeOpt_none r⟩

/-- Claim C3, witness: S = {services, labour} — exactly those two
fields are populated, the seifa field stays absent, status is
`ready`. -/
theorem fetchAll_success_subset_witness :
    (fetchAll initialResultState FetchOutcome.rejected
      (FetchOutcome.fulfilled true (some sampleServicesBody))
      FetchOutcome.rejected
      (FetchOutcome.fulfilled true (some sampleLabour))
      FetchOutcome.rejected).status = Status.ready ∧
    (fetchAll initialResultState FetchOutcome.rejected
      (FetchOutcome.fulfilled true (some sampleServicesBody))
      FetchOutcome.rejected
      (FetchOutcome.fulfilled true (some sampleLabour))
      FetchOutcome.rejected).services = [sampleService] ∧
    (fetchAll initialResultState FetchOutcome.rejected
      (FetchOutcome.fulfilled true (some sampleServicesBody))
      FetchOutcome.rejected
      (FetchOutcome.fulfilled true (some sampleLabour))
      FetchOutcome.rejected).labour = some sampleLabour ∧
    (fetchAll initialResultState FetchOutcome.rejected
      (FetchOutcome.fulfilled true (some sampleServicesBody))
      FetchOutcome.rejected
      (FetchOutcome.fulfilled true (some sampleLabour))
      FetchOutcome.rejected).seifa = none := by
  have h := fetchAll_success_subset_characterization FetchOutcome.rejected
    (FetchOutcome.fulfilled true (some sampleServicesBody))
    FetchOutcome.rejected (FetchOutcome.fulfilled true (some sampleLabour))
    FetchOutcome.rejected rfl rfl rfl rfl rfl
  exact ⟨h.1, h.2.2.1, h.2.2.2.2.1, h.2.2.2.1⟩

/-- Claim C4 (confirmed): when all four query fields are non-empty the
effect triggers the aggregation, and whatever the five settlement
outcomes are, the `finally` block clears the loading flag and the final
status is `ready` or `failed` — never stuck in `loading`. -/
theorem fetchAll_terminates_ready_or_failed (q : Query) (s : ResultState)
    (i : FetchOutcome AIInsight) (sv : FetchOutcome ServicesBody)
    (se : FetchOutcome SeifaData) (l : FetchOutcome LabourData)
    (r : FetchOutcome RuleCard) (hc : q.category ≠ "") (hs : q.state ≠ "")
    (hb : q.suburb ≠ "") (hq : q.user_query ≠ "") :
    (effectRun q s i sv se l r).loading = false ∧
    ((effectRun q s i sv se l r).status = Status.ready ∨
      (effectRun q s i sv se l r).status = Status.failed) := by
  have he : effectRun q s i sv se l r = fetchAll s i sv se l r := by
    unfold effectRun
    rw [if_pos ⟨hc, hs, hb, hq⟩]
  rw [he]
  refine ⟨fetchAll_loading_cleared s i sv se l r, ?_⟩
  exact status_ready_or_failed (fetchAll_loading_cleared s i sv se l r)

/-- Claim C4, witness: a fully populated query with all five requests
rejected still ends with loading cleared and a terminal status. -/
theorem fetchAll_terminates_witness :
    (effectRun sampleQuery initialResultState FetchOutcome.rejected
      FetchOutcome.rejected FetchOutcome.rejected FetchOutcome.rejected
      FetchOutcome.rejected).loading = false ∧
    ((effectRun sampleQuery initialResultState FetchOutcome.rejected
      FetchOutcome.rejected FetchOutcome.rejected FetchOutcome.rejected
      FetchOutcome.rejected).status = Status.ready ∨
      (effectRun sampleQuery initialResultState FetchOutcome.rejected
        FetchOutcome.rejected FetchOutcome.rejected FetchOutcome.rejected
        FetchOutcome.rejected).status = Status.failed) :=
  fetchAll_terminates_ready_or_failed sampleQuery initialResultState
    FetchOutcome.rejected FetchOutcome.rejected FetchOutcome.rejected
    FetchOutcome.rejected FetchOutcome.rejected (by decide) (by decide)
    (by decide) (by decide)

/-- Claim C5 (confirmed): whenever the suburb-list request fails in any
way — rejection (network error), non-success status, or a body that is
not valid JSON — `fetchSuburbs` returns `suburbsFallback state`, i.e.
the static built-in list when the state is a key of
`SUBURBS_BY_STATE` and the empty list when it is not.  The embedded
function is total, so no failure path raises to the caller. -/
theorem fetchSuburbs_failure_fallback (state : String)
    (res : FetchOutcome SuburbsBody) (h : res.isSuccess = false) :
    (fetchSuburbs state res).1 = suburbsFallback state := by
  unfold fetchSuburbs
  by_cases hs : state = ""
  · rw [if_pos hs, hs]
    rfl
  · rw [if_neg hs]
    cases res with
    | rejected => rfl
    | fulfilled ok body =>
      cases ok <;> cases body <;> first | rfl | exact Bool.noConfusion h

/-- Claim C5, witness: a rejected request for a known state returns its
static list, and for an unknown state returns the empty list. -/
theorem fetchSuburbs_failure_fallback_witness :
    (fetchSuburbs "QLD" FetchOutcome.rejected).1 =
      ["Brisbane City", "Gold Coast", "Sunshine Coast", "Townsville",
       "Cairns", "Toowoomba", "Mackay", "Rockhampton", "Bundaberg",
       "Hervey Bay"] ∧
    (fetchSuburbs "ZZ" FetchOutcome.rejected).1 = [] :=
  ⟨fetchSuburbs_failure_fallback "QLD" FetchOutcome.rejected rfl,
   fetchSuburbs_failure_fallback "ZZ" FetchOutcome.rejected rfl⟩

/-- Claim C6 (confirmed): for the empty state string, `fetchSuburbs`
returns the empty list and the no-network-call flag, whatever the
would-be response: the guard `if (!state)` returns before the fetch. -/
theorem fetchSuburbs_empty_state_no_call (res : FetchOutcome SuburbsBody) :
    fetchSuburbs "" res = ([], false) :=
  rfl

/-- Claim C7 (confirmed, as idempotence over the component state):
running `fetchAll` a second time with the identical query (hence the
same five endpoints) and identical responses, over the state the first
run produced, yields exactly the state of the first run — two
invocations with identical inputs yield identical results.  Determinism
itself is immediate since the embedded merge is a pure function of the
query's responses. -/
theorem fetchAll_idempotent (s : ResultState) (i : FetchOutcome AIInsight)
    (sv : FetchOutcome ServicesBody) (se : FetchOutcome SeifaData)
    (l : FetchOutcome LabourData) (r : FetchOutcome RuleCard) :
    fetchAll (fetchAll s i sv se l r) i sv se l r =
      fetchAll s i sv se l r := by
  simp only [fetchAll_eq_fetchAllE]
  exact fetchAllE_idem s i.eff sv.eff se.eff l.eff r.eff

/-- Claim C8 (confirmed): the rendered step list of a populated guide
is exactly the result of splitting `rulecard` (the guide text) on
newline characters — same elements in the same order, nothing filtered
or merged — and the badge numbers are exactly 1, 2, …, n in order. -/
theorem guide_steps_exact_split (rc : RuleCard) :
    (guideStepsRendered rc).map Prod.snd = rc.rulecard.splitOn "\n" ∧
    (guideStepsRendered rc).map Prod.fst =
      List.range' 1 ((rc.rulecard.splitOn "\n").length) :=
  ⟨enumFrom_shift_map_snd (rc.rulecard.splitOn "\n") 0,
   enumFrom_shift_map_fst (rc.rulecard.splitOn "\n") 0⟩

/-- Claim C9 (confirmed): `fetchAll` resets only `loading` and `error`
at the start; the five data cells are never re-initialised, so any
source that does not succeed in the new aggregation (rejection, non-ok
status, or unparseable body) leaves its field holding whatever the
previous aggregation stored there. -/
theorem fetchAll_preserves_fields_on_failure (s : ResultState)
    (i : FetchOutcome AIInsight) (sv : FetchOutcome ServicesBody)
    (se : FetchOutcome SeifaData) (l : FetchOutcome LabourData)
    (r : FetchOutcome RuleCard) :
    (i.isSuccess = false →
      (fetchAll s i sv se l r).aiInsight = s.aiInsight) ∧
    (sv.isSuccess = false →
      (fetchAll s i sv se l r).services = s.services) ∧
    (se.isSuccess = false → (fetchAll s i sv se l r).seifa = s.seifa) ∧
    (l.isSuccess = false → (fetchAll s i sv se l r).labour = s.labour) ∧
    (r.isSuccess = false →
      (fetchAll s i sv se l r).rulecard = s.rulecard) := by
  rw [fetchAll_eq_fetchAllE]
  have H := fetchAllE_retain s i.eff sv.eff se.eff l.eff r.eff
  exact ⟨fun h => H.1 (isGot_eff_of_isSuccess_false h),
    fun h => H.2.1 (isGot_eff_of_isSuccess_false h),
    fun h => H.2.2.1 (isGot_eff_of_isSuccess_false h),
    fun h => H.2.2.2.1 (isGot_eff_of_isSuccess_false h),
    fun h => H.2.2.2.2 (isGot_eff_of_isSuccess_false h)⟩

/-- Claim C9, witness: starting from a state whose seifa panel was
populated by a previous aggregation, a new aggregation whose seifa
request is rejected keeps the stale seifa value. -/
theorem fetchAll_preserves_fields_witness :
    (fetchAll previousResultState FetchOutcome.rejected
      FetchOutcome.rejected FetchOutcome.rejected FetchOutcome.rejected
      FetchOutcome.rejected).seifa = some sampleSeifa :=
  (fetchAll_preserves_fields_on_failure previousResultState
    FetchOutcome.rejected FetchOutcome.rejected FetchOutcome.rejected
    FetchOutcome.rejected FetchOutcome.rejected).2.2.1 rfl

/-- Claim C10, counterexample.  Concrete input: starting from a state
whose services panel holds a previous aggregation's list, the intent
response is ok with an unparseable body and the services response is
fulfilled with a success status and a well-formed body whose
`services` key is missing.  The claim predicts the services list is
set to the empty list; instead the `json()` call for the intent
response throws out of the `try` before the services block runs, so
the services field keeps its prior (non-empty) value. -/
theorem fetchAll_missing_services_key_aborted_by_intent_throw :
    (fetchAll staleServicesState (FetchOutcome.fulfilled true none)
      (FetchOutcome.fulfilled true (some { services := none }))
      FetchOutcome.rejected FetchOutcome.rejected
      FetchOutcome.rejected).services = staleServicesState.services ∧
    (fetchAll staleServicesState (FetchOutcome.fulfilled true none)
      (FetchOutcome.fulfilled true (some { services := none }))
      FetchOutcome.rejected FetchOutcome.rejected
      FetchOutcome.rejected).services ≠ [] :=
  ⟨rfl, fun h => List.noConfusion h⟩

/-- Claim C10 (amended): a services response that is fulfilled with a
success status and a well-formed body whose `services` key is missing
or null sets the services list to the empty list (`servData.services ||
[]`), processed as a success rather than a failure — provided the
earlier intent response does not abort the merge with an unparseable
body; when it does, the services block never runs and the field keeps
its prior value (see the counterexample). -/
theorem fetchAll_missing_services_key_empty_list (s : ResultState)
    (i : FetchOutcome AIInsight) (se : FetchOutcome SeifaData)
    (l : FetchOutcome LabourData) (r : FetchOutcome RuleCard)
    (h1 : i.isThrow = false) :
    (fetchAll s i
      (FetchOutcome.fulfilled true (some { services := none })) se l
      r).services = [] := by
  rw [fetchAll_eq_fetchAllE]
  exact fetchAllE_services_got s i.eff { services := none } se.eff l.eff
    r.eff (eff_ne_thrown_of_isThrow_false h1)

/-- Claim C10, witness: concrete run with a body missing the `services`
key — the services list ends empty. -/
theorem fetchAll_missing_services_key_witness :
    (fetchAll initialResultState FetchOutcome.rejected
      (FetchOutcome.fulfilled true (some { services := none }))
      FetchOutcome.rejected FetchOutcome.rejected
      FetchOutcome.rejected).services = [] :=
  fetchAll_missing_services_key_empty_list initialResultState
    FetchOutcome.rejected FetchOutcome.rejected FetchOutcome.rejected
    FetchOutcome.rejected rfl

end GovMate
